import Mathlib

/-!
Verification of the task-completion dashboard pipeline (`app.py`):
the Google-Sheets URL resolver, the column normalization and rename
step, the status / tatkal classification, and the count aggregation.

Strings are modelled via their underlying `List Char`; a missing cell
(pandas `NaN`) is `none : Option String`; Python exceptions are the
`Except.error` branch; Python float division is modelled in `ℚ`.
-/

/-- Python `str.strip()` on the underlying character list: drop leading
and trailing whitespace. -/
def pyStrip (l : List Char) : List Char :=
  ((l.dropWhile Char.isWhitespace).reverse.dropWhile Char.isWhitespace).reverse

/-- Python `str.lower()` on the underlying character list (ASCII letters,
as in the headers and cells this program handles). -/
def pyLower (l : List Char) : List Char :=
  l.map Char.toLower

/-- The pandas strip-and-lower-case chain applied to one cell value. -/
def normalizeCell (s : String) : String :=
  String.mk (pyLower (pyStrip s.data))

/-- A character allowed in a Google-Sheets document id: the regex class
`[a-zA-Z0-9-_]` of `create_google_sheet_csv_url`. -/
def isIdChar (c : Char) : Bool :=
  (decide ('a' ≤ c) && decide (c ≤ 'z')) ||
  (decide ('A' ≤ c) && decide (c ≤ 'Z')) ||
  (decide ('0' ≤ c) && decide (c ≤ '9')) ||
  c == '-' || c == '_'

/-- One attempt of the regex `/d/([a-zA-Z0-9-_]+)` at the current
position: the next characters must be `/`, `d`, `/` and at least one id
character; the group captures the maximal run of id characters. -/
def matchHere : List Char → Option (List Char)
  | a :: b :: c :: d :: cs =>
    if a = '/' ∧ b = 'd' ∧ c = '/' ∧ isIdChar d = true
    then some (d :: cs.takeWhile isIdChar)
    else none
  | _ => none

/-- The search of the regex (as run by re.search with the pattern
above): try the pattern at each position left to right; the first
success wins. -/
def findIdMatch : List Char → Option (List Char)
  | [] => none
  | a :: t =>
    match matchHere (a :: t) with
    | some r => some r
    | none => findIdMatch t

/-- The function create_google_sheet_csv_url from `app.py`: convert a Google Sheet
URL to a direct CSV export link, or `None` when the id pattern is absent. -/
def create_google_sheet_csv_url (url : String) : Option String :=
  match findIdMatch url.data with
  | some sheet_id =>
    some ("https://docs.google.com/spreadsheets/d/" ++ String.mk sheet_id
      ++ "/export?format=csv")
  | none => none

/-- The fixed rename table of `df.rename` in `app.py`. -/
def renameTable : List (String × String) :=
  [("sr.no.", "sr_no"),
   ("d.o.r", "date_of_receipt"),
   ("completion date", "completion_date"),
   ("action taken", "action_taken"),
   ("remarks", "remarks")]

/-- The rename step of `app.py` applied to one (already normalized) column
name: renamed when it is a key of the table, unchanged otherwise. -/
def renameCol (s : String) : String :=
  match renameTable.lookup s with
  | some t => t
  | none => s

/-- The strip-and-lower-case step of `app.py` on one column name. -/
def normalizeCol (s : String) : String :=
  String.mk (pyLower (pyStrip s.data))

/-- The full header normalization of `app.py`: strip + lower-case every
column name, then apply the fixed rename table. -/
def normalizeHeader (cols : List String) : List String :=
  cols.map (fun c => renameCol (normalizeCol c))

/-- The status classification of `app.py`, applied to the remarks cell
of one record: Completed when the cell is present (pd.notna) and its
stripped text is nonempty, Pending otherwise.  A missing cell (pandas
NaN) is `none`. -/
def statusOf (remarks : Option String) : String :=
  match remarks with
  | some x => if pyStrip x.data ≠ [] then "Completed" else "Pending"
  | none => "Pending"

/-- The urgency classification of `app.py`, applied to the priority cell
of one record: strip the cell, lower-case it and compare with the
literal tatkal.  The pandas str accessor propagates NaN, and comparing
NaN with a string yields False. -/
def is_tatkal_cell (priority : Option String) : Bool :=
  match priority with
  | some s => normalizeCell s == "tatkal"
  | none => false

/-- One row of the parsed CSV: the cell values in header order, a missing
value (pandas `NaN`) being `none`. -/
abbrev RawRow := List (Option String)

/-- Cell access: look the column name up in the header and read that cell;
`none` when the column or the cell is absent. -/
def getCell (cols : List String) (row : RawRow) (c : String) : Option String :=
  match cols.findIdx? (fun x => x == c) with
  | some i => (row.get? i).bind id
  | none => none

/-- A record after the two classification steps of `app.py`. -/
structure ClassifiedRow where
  status : String
  is_tatkal : Bool
deriving DecidableEq, Repr

/-- The two derived columns of `app.py` for one row: `status` from the
`remarks` cell, and `is_tatkal` from the `priority` cell when the
`priority` column exists, `False` for every record otherwise. -/
def classifyRow (cols : List String) (row : RawRow) : ClassifiedRow :=
  { status := statusOf (getCell cols row "remarks"),
    is_tatkal :=
      if cols.contains "priority" then is_tatkal_cell (getCell cols row "priority")
      else false }

/-- The dataset size, the first overall aggregate of `app.py`. -/
def total_tasks (df : List ClassifiedRow) : Nat :=
  df.length

/-- The count of records whose status is Completed, as `app.py` derives
it from the full dataset. -/
def completed_tasks (df : List ClassifiedRow) : Nat :=
  (df.filter (fun r => r.status == "Completed")).length

/-- The pending count: total minus completed, as `app.py` computes it. -/
def pending_tasks (df : List ClassifiedRow) : Nat :=
  total_tasks df - completed_tasks df

/-- The tatkal subset of the dataset: the records flagged is_tatkal. -/
def tatkal_df (df : List ClassifiedRow) : List ClassifiedRow :=
  df.filter (fun r => r.is_tatkal)

/-- The size of the tatkal subset. -/
def total_tatkal_tasks (df : List ClassifiedRow) : Nat :=
  (tatkal_df df).length

/-- The count of tatkal records whose status is Completed. -/
def completed_tatkal_tasks (df : List ClassifiedRow) : Nat :=
  ((tatkal_df df).filter (fun r => r.status == "Completed")).length

/-- The pending tatkal count: tatkal total minus tatkal completed. -/
def pending_tatkal_tasks (df : List ClassifiedRow) : Nat :=
  total_tatkal_tasks df - completed_tatkal_tasks df

/-- The parsed CSV as fetched: a header row of column names and the data
rows in source order. -/
structure DataFrame where
  cols : List String
  rows : List RawRow
deriving Repr

/-- A Python percentage `(a/b)*100`: `int / int` is exact rational
division, modelled in `ℚ`; dividing by zero raises `ZeroDivisionError`. -/
def pct (a b : Nat) : Except String ℚ :=
  if b = 0 then Except.error "ZeroDivisionError"
  else Except.ok (((a : ℚ) / (b : ℚ)) * 100)

/-- Everything the dashboard derives from one fetch: the classified
records, the overall aggregates with their percentage displays, the
tatkal total, the tatkal summary (only rendered when the tatkal total is
positive), and the non-fatal warnings surfaced along the way. -/
structure PipelineResult where
  records : List ClassifiedRow
  total : Nat
  completed : Nat
  pending : Nat
  completedPct : ℚ
  pendingPct : ℚ
  total_tatkal : Nat
  tatkalSummary : Option (Nat × Nat × ℚ × ℚ)
  warnings : List String
deriving Repr

/-- The ingestion-and-classification body of `app.py` after the CSV is
fetched (lines 49-104): normalize the header, derive `status` (a
`KeyError` aborts everything when no `remarks` column exists), derive
`is_tatkal` (surfacing `MissingPriorityColumn` non-fatally when no
`priority` column exists), then aggregate; the overall percentage
metrics divide by `total_tasks` unconditionally, the tatkal percentage
metrics only behind the `total_tatkal_tasks > 0` check.  Any raised
exception is the `Except.error` branch, as caught by the final
`except` block. -/
def runPipeline (df0 : DataFrame) : Except String PipelineResult :=
  let cols := normalizeHeader df0.cols
  if cols.contains "remarks" then
    let recs := df0.rows.map (classifyRow cols)
    let warnings := if cols.contains "priority" then [] else ["MissingPriorityColumn"]
    let total := total_tasks recs
    let completed := completed_tasks recs
    let pending := pending_tasks recs
    match pct completed total, pct pending total with
    | Except.ok cPct, Except.ok pPct =>
      let tt := total_tatkal_tasks recs
      if 0 < tt then
        match pct (completed_tatkal_tasks recs) tt, pct (pending_tatkal_tasks recs) tt with
        | Except.ok ctPct, Except.ok ptPct =>
          Except.ok ⟨recs, total, completed, pending, cPct, pPct, tt,
            some (completed_tatkal_tasks recs, pending_tatkal_tasks recs, ctPct, ptPct),
            warnings⟩
        | Except.error e, _ => Except.error e
        | _, Except.error e => Except.error e
      else
        Except.ok ⟨recs, total, completed, pending, cPct, pPct, tt, none, warnings⟩
    | Except.error e, _ => Except.error e
    | _, Except.error e => Except.error e
  else
    Except.error "KeyError: remarks"

/-!  Spec-side definitions, written from the wording of the spec, to be compared
with the definitions above that are translated from `app.py`. -/

/-- From the wording of the spec: does the pattern `/d/` followed by at least
one identifier character occur at position `i` of the URL? -/
def idMatchAt (l : List Char) (i : Nat) : Bool :=
  match l.drop i with
  | a :: b :: c :: d :: _ => decide (a = '/' ∧ b = 'd' ∧ c = '/') && isIdChar d
  | _ => false

/-- From the wording of the spec: the identifier captured at position `i`: the
maximal run of allowed characters after the three characters of `/d/`;
anything after that run is ignored. -/
def specCaptureAt (l : List Char) (i : Nat) : List Char :=
  (l.drop (i + 3)).takeWhile isIdChar

/-- From the wording of the spec: the identifier captured at the first
occurrence of `/d/` followed by one or more allowed characters, if any
position of the URL carries such an occurrence. -/
def specFirstId (l : List Char) : Option (List Char) :=
  ((List.range l.length).find? (idMatchAt l)).map (specCaptureAt l)

/-- From the wording of claim C2: normalization followed by the claimed
rename table, whose first entry sends `sr.no.` to `sequence_no`. -/
def claimedNormalizeHeader (cols : List String) : List String :=
  cols.map (fun c =>
    let n := normalizeCol c
    if n = "sr.no." then "sequence_no"
    else if n = "d.o.r" then "date_of_receipt"
    else if n = "completion date" then "completion_date"
    else if n = "action taken" then "action_taken"
    else if n = "remarks" then "remarks"
    else n)

/-- The amended rename behaviour (C2): identical to the claimed one
except that `sr.no.` is sent to `sr_no`, as `app.py` does. -/
def amendedNormalizeHeader (cols : List String) : List String :=
  cols.map (fun c =>
    let n := normalizeCol c
    if n = "sr.no." then "sr_no"
    else if n = "d.o.r" then "date_of_receipt"
    else if n = "completion date" then "completion_date"
    else if n = "action taken" then "action_taken"
    else if n = "remarks" then "remarks"
    else n)

/-!  Supporting lemmas about characters and lists. -/

theorem toNat_ofNat_lt {n : Nat} (h : n < 55296) : (Char.ofNat n).toNat = n := by
  have hv : n.isValidChar := Or.inl h
  rw [Char.ofNat, dif_pos hv]
  rfl

theorem toLower_toLower (c : Char) : c.toLower.toLower = c.toLower := by
  unfold Char.toLower
  by_cases h : c.toNat ≥ 65 ∧ c.toNat ≤ 90
  · rw [if_pos h]
    have h32 : (Char.ofNat (c.toNat + 32)).toNat = c.toNat + 32 :=
      toNat_ofNat_lt (by omega)
    rw [if_neg (by omega)]
  · rw [if_neg h, if_neg h]

theorem not_ws_of_ge (c : Char) (h : 65 ≤ c.toNat) : c.isWhitespace = false := by
  rcases hw : c.isWhitespace with _ | _
  · rfl
  · exfalso
    unfold Char.isWhitespace at hw
    simp only [Bool.or_eq_true, decide_eq_true_eq] at hw
    rcases hw with ((he | he) | he) | he <;> subst he <;> revert h <;> decide

theorem isWhitespace_toLower (c : Char) : c.toLower.isWhitespace = c.isWhitespace := by
  unfold Char.toLower
  by_cases h : c.toNat ≥ 65 ∧ c.toNat ≤ 90
  · rw [if_pos h]
    have h32 : (Char.ofNat (c.toNat + 32)).toNat = c.toNat + 32 :=
      toNat_ofNat_lt (by omega)
    rw [not_ws_of_ge _ (by omega), not_ws_of_ge c (by omega)]
  · rw [if_neg h]

theorem pyLower_idem (l : List Char) : pyLower (pyLower l) = pyLower l := by
  unfold pyLower
  rw [List.map_map]
  exact List.map_congr_left (fun a _ => toLower_toLower a)

theorem dropWhile_head?_false {α : Type} (p : α → Bool) (l : List α) (a : α)
    (h : (l.dropWhile p).head? = some a) : p a = false := by
  induction l with
  | nil => simp [List.dropWhile] at h
  | cons b t ih =>
    by_cases hb : p b
    · rw [List.dropWhile_cons_of_pos hb] at h
      exact ih h
    · rw [List.dropWhile_cons_of_neg hb] at h
      simp only [List.head?_cons, Option.some.injEq] at h
      subst h
      simp_all

theorem dropWhile_of_head?_false {α : Type} (p : α → Bool) (l : List α)
    (h : ∀ a, l.head? = some a → p a = false) : l.dropWhile p = l := by
  cases l with
  | nil => rfl
  | cons b t =>
    rw [List.dropWhile_cons_of_neg]
    simp [h b rfl]

theorem dropWhile_idem {α : Type} (p : α → Bool) (l : List α) :
    (l.dropWhile p).dropWhile p = l.dropWhile p :=
  dropWhile_of_head?_false _ _ (fun a ha => dropWhile_head?_false p l a ha)

theorem rtrim_decomp {α : Type} (p : α → Bool) (l : List α) :
    ∃ t, l = (l.reverse.dropWhile p).reverse ++ t := by
  obtain ⟨u, hu⟩ := List.dropWhile_suffix (l := l.reverse) p
  refine ⟨u.reverse, ?_⟩
  conv_lhs => rw [← l.reverse_reverse, ← hu]
  rw [List.reverse_append]

theorem head?_rtrim {α : Type} (p : α → Bool) (l : List α)
    (hne : (l.reverse.dropWhile p).reverse ≠ []) :
    ((l.reverse.dropWhile p).reverse).head? = l.head? := by
  obtain ⟨t, ht⟩ := rtrim_decomp p l
  conv_rhs => rw [ht]
  rw [List.head?_append]
  cases hh : ((l.reverse.dropWhile p).reverse).head? with
  | none => exact absurd (List.head?_eq_none_iff.mp hh) hne
  | some a => rfl

theorem pyStrip_idem (l : List Char) : pyStrip (pyStrip l) = pyStrip l := by
  unfold pyStrip
  set p := Char.isWhitespace with hp
  set x := l.dropWhile p with hx
  set r := (x.reverse.dropWhile p).reverse with hr
  have h1 : r.dropWhile p = r := by
    apply dropWhile_of_head?_false
    intro a ha
    have hne : r ≠ [] := by
      intro hnil
      rw [hnil] at ha
      simp at ha
    rw [hr, head?_rtrim p x] at ha
    · exact dropWhile_head?_false p l a (hx ▸ ha)
    · rw [← hr]; exact hne
  rw [h1]
  rw [hr, List.reverse_reverse]
  rw [dropWhile_idem]

theorem pyStrip_pyLower (l : List Char) :
    pyStrip (pyLower l) = pyLower (pyStrip l) := by
  have hpf : (Char.isWhitespace ∘ Char.toLower) = Char.isWhitespace :=
    funext isWhitespace_toLower
  unfold pyStrip pyLower
  rw [List.dropWhile_map, hpf, ← List.map_reverse, List.dropWhile_map, hpf,
    ← List.map_reverse]

theorem normalizeCol_idem (s : String) : normalizeCol (normalizeCol s) = normalizeCol s := by
  unfold normalizeCol
  congr 1
  show pyLower (pyStrip (pyLower (pyStrip s.data))) = pyLower (pyStrip s.data)
  rw [pyStrip_pyLower, pyStrip_idem, pyLower_idem]

theorem renameCol_eq (n : String) :
    renameCol n =
      if n = "sr.no." then "sr_no"
      else if n = "d.o.r" then "date_of_receipt"
      else if n = "completion date" then "completion_date"
      else if n = "action taken" then "action_taken"
      else if n = "remarks" then "remarks"
      else n := by
  unfold renameCol renameTable
  simp only [List.lookup]
  split_ifs with h1 h2 h3 h4 h5
  · subst h1; rfl
  · rw [beq_eq_false_iff_ne.mpr h1]; subst h2; rfl
  · rw [beq_eq_false_iff_ne.mpr h1, beq_eq_false_iff_ne.mpr h2]; subst h3; rfl
  · rw [beq_eq_false_iff_ne.mpr h1, beq_eq_false_iff_ne.mpr h2,
      beq_eq_false_iff_ne.mpr h3]; subst h4; rfl
  · rw [beq_eq_false_iff_ne.mpr h1, beq_eq_false_iff_ne.mpr h2,
      beq_eq_false_iff_ne.mpr h3, beq_eq_false_iff_ne.mpr h4]; subst h5; rfl
  · rw [beq_eq_false_iff_ne.mpr h1, beq_eq_false_iff_ne.mpr h2,
      beq_eq_false_iff_ne.mpr h3, beq_eq_false_iff_ne.mpr h4,
      beq_eq_false_iff_ne.mpr h5]

theorem normOne_idem (s : String) :
    renameCol (normalizeCol (renameCol (normalizeCol s))) = renameCol (normalizeCol s) := by
  rw [renameCol_eq (normalizeCol s)]
  split_ifs with h1 h2 h3 h4 h5
  · decide
  · decide
  · decide
  · decide
  · decide
  · rw [normalizeCol_idem, renameCol_eq (normalizeCol s)]
    split_ifs
    rfl

theorem matchHere_eq_spec (l : List Char) :
    matchHere l = if idMatchAt l 0 = true then some (specCaptureAt l 0) else none := by
  match l with
  | [] => rfl
  | [a] => rfl
  | [a, b] => rfl
  | [a, b, c] => rfl
  | a :: b :: c :: d :: cs =>
    by_cases h : a = '/' ∧ b = 'd' ∧ c = '/' ∧ isIdChar d = true
    · have ht : idMatchAt (a :: b :: c :: d :: cs) 0 = true := by
        simp [idMatchAt, h.1, h.2.1, h.2.2.1, h.2.2.2]
      rw [matchHere, if_pos h, ht, if_pos rfl]
      simp [specCaptureAt, List.takeWhile_cons_of_pos h.2.2.2]
    · have hf : idMatchAt (a :: b :: c :: d :: cs) 0 = false := by
        by_cases habc : a = '/' ∧ b = 'd' ∧ c = '/'
        · cases hD : isIdChar d with
          | false => simp [idMatchAt, habc, hD]
          | true => exact absurd ⟨habc.1, habc.2.1, habc.2.2, hD⟩ h
        · simp [idMatchAt, habc]
      rw [matchHere, if_neg h, hf]
      simp

theorem findIdMatch_eq_spec (l : List Char) : findIdMatch l = specFirstId l := by
  induction l with
  | nil => rfl
  | cons a t ih =>
    rw [findIdMatch, matchHere_eq_spec]
    by_cases h : idMatchAt (a :: t) 0 = true
    · rw [if_pos h]
      unfold specFirstId
      rw [show (a :: t).length = t.length + 1 from rfl, List.range_succ_eq_map,
        List.find?_cons_of_pos _ h]
      rfl
    · rw [if_neg h]
      show findIdMatch t = specFirstId (a :: t)
      rw [ih]
      unfold specFirstId
      rw [show (a :: t).length = t.length + 1 from rfl, List.range_succ_eq_map,
        List.find?_cons_of_neg _ h, List.find?_map, Option.map_map]
      rfl

theorem completed_le_total (recs : List ClassifiedRow) :
    completed_tasks recs ≤ total_tasks recs :=
  List.length_filter_le _ recs

theorem completed_add_pending (recs : List ClassifiedRow) :
    completed_tasks recs + pending_tasks recs = total_tasks recs := by
  have h := completed_le_total recs
  unfold pending_tasks
  omega

/-!  Claim theorems. -/

/-- C7: for every URL string, `create_google_sheet_csv_url` returns the
export URL embedding exactly the identifier captured at the first
occurrence of `/d/` followed by one or more characters from
`[a-zA-Z0-9-_]` (characters after that run being ignored), and returns
`none`, without raising, when no position of the URL carries such a
`/d/<id>` occurrence. -/
theorem resolver_first_occurrence (url : String) :
    create_google_sheet_csv_url url =
      (specFirstId url.data).map (fun sheet_id =>
        "https://docs.google.com/spreadsheets/d/" ++ String.mk sheet_id
          ++ "/export?format=csv") := by
  unfold create_google_sheet_csv_url
  rw [findIdMatch_eq_spec]
  cases specFirstId url.data <;> rfl

/-- C8: column normalization (strip + lower-case + fixed rename table) is
idempotent: normalizing an already-normalized header yields it unchanged. -/
theorem normalize_header_idempotent (cols : List String) :
    normalizeHeader (normalizeHeader cols) = normalizeHeader cols := by
  unfold normalizeHeader
  rw [List.map_map]
  exact List.map_congr_left (fun c _ => normOne_idem c)

/-- C2 counterexample: the claimed rename table sends the header
`Sr.No.` to `sequence_no`, but the normalization of the program sends it to
`sr_no`, so the claimed table is not the one applied. -/
theorem rename_table_counterexample :
    claimedNormalizeHeader ["Sr.No."] = ["sequence_no"] ∧
    normalizeHeader ["Sr.No."] = ["sr_no"] ∧
    (normalizeHeader ["Sr.No."] == claimedNormalizeHeader ["Sr.No."]) = false := by
  decide

/-- C2 amended: header normalization strips and lower-cases every column
name and then applies the fixed rename table whose entries are
`sr.no. → sr_no`, `d.o.r → date_of_receipt`,
`completion date → completion_date`, `action taken → action_taken`,
`remarks → remarks`, leaving unrecognized columns unchanged under their
normalized name. -/
theorem normalize_header_rename_amended (cols : List String) :
    normalizeHeader cols = amendedNormalizeHeader cols := by
  unfold normalizeHeader amendedNormalizeHeader
  apply List.map_congr_left
  intro c _
  rw [renameCol_eq]

/-- C3: the status of a record is `Completed` iff its remarks cell is present
and non-empty after stripping whitespace; the status is otherwise
`Pending`, and an all-whitespace remarks value yields `Pending`. -/
theorem status_completed_iff_remarks_nonblank :
    (∀ r : Option String, statusOf r = "Completed" ↔
      ∃ s, r = some s ∧ pyStrip s.data ≠ []) ∧
    (∀ r : Option String, statusOf r = "Completed" ∨ statusOf r = "Pending") ∧
    statusOf (some "   ") = "Pending" := by
  refine ⟨?_, ?_, by decide⟩
  · intro r
    cases r with
    | none =>
      simp [statusOf, show ("Pending" : String) ≠ "Completed" from by decide]
    | some x =>
      simp only [statusOf]
      by_cases h : pyStrip x.data = []
      · rw [if_neg (by simp [h])]
        simp [h, show ("Pending" : String) ≠ "Completed" from by decide]
      · rw [if_pos h]
        simp [h]
  · intro r
    cases r with
    | none => right; rfl
    | some x =>
      simp only [statusOf]
      by_cases h : pyStrip x.data = []
      · rw [if_neg (by simp [h])]; right; rfl
      · rw [if_pos h]; left; rfl

/-- C3 witness: a concrete record with nonblank remarks is classified
Completed. -/
theorem status_completed_iff_remarks_nonblank_witness :
    statusOf (some "done") = "Completed" :=
  (status_completed_iff_remarks_nonblank.1 (some "done")).mpr
    ⟨"done", rfl, by decide⟩

/-- C4: over any classified dataset, completed + pending tasks equal the
total, completed + pending tatkal tasks equal the tatkal total, and every
record of the tatkal subset is a record of the full dataset. -/
theorem aggregate_partition_and_subset (recs : List ClassifiedRow) :
    completed_tasks recs + pending_tasks recs = total_tasks recs ∧
    completed_tatkal_tasks recs + pending_tatkal_tasks recs = total_tatkal_tasks recs ∧
    ∀ r ∈ tatkal_df recs, r ∈ recs := by
  refine ⟨completed_add_pending recs, ?_, ?_⟩
  · have h : completed_tatkal_tasks recs ≤ total_tatkal_tasks recs :=
      List.length_filter_le _ (tatkal_df recs)
    unfold pending_tatkal_tasks
    omega
  · intro r hr
    exact List.mem_of_mem_filter hr

/-- C4 witness: a concrete tatkal record of a one-record dataset is a
record of that dataset. -/
theorem aggregate_partition_and_subset_witness :
    (⟨"Completed", true⟩ : ClassifiedRow) ∈ ([⟨"Completed", true⟩] : List ClassifiedRow) :=
  (aggregate_partition_and_subset [⟨"Completed", true⟩]).2.2 ⟨"Completed", true⟩ (by decide)

/-- C5: a record is classified tatkal only if its priority cell is
present and equals `tatkal` after stripping and lower-casing; conversely,
when the priority column is present, any record whose normalized priority
cell equals `tatkal` is classified tatkal. -/
theorem is_tatkal_iff_priority_tatkal (cols : List String) (row : RawRow) :
    ((classifyRow cols row).is_tatkal = true →
      ∃ s, getCell cols row "priority" = some s ∧ normalizeCell s = "tatkal") ∧
    (cols.contains "priority" = true →
      ∀ s, getCell cols row "priority" = some s → normalizeCell s = "tatkal" →
        (classifyRow cols row).is_tatkal = true) := by
  constructor
  · intro h
    replace h : (if cols.contains "priority" = true
        then is_tatkal_cell (getCell cols row "priority") else false) = true := h
    cases hp : cols.contains "priority" with
    | false => rw [hp, if_neg (by decide)] at h; simp at h
    | true =>
      rw [hp, if_pos rfl] at h
      cases hc : getCell cols row "priority" with
      | none => rw [hc] at h; simp [is_tatkal_cell] at h
      | some s =>
        rw [hc] at h
        simp only [is_tatkal_cell, beq_iff_eq] at h
        exact ⟨s, rfl, h⟩
  · intro hp s hc hs
    show (if cols.contains "priority" = true
      then is_tatkal_cell (getCell cols row "priority") else false) = true
    rw [hp, if_pos rfl, hc]
    simp [is_tatkal_cell, hs]

/-- C5 witness: a concrete record whose priority cell is ` Tatkal ` is
classified tatkal. -/
theorem is_tatkal_iff_priority_tatkal_witness :
    (classifyRow ["priority"] [some " Tatkal "]).is_tatkal = true :=
  (is_tatkal_iff_priority_tatkal ["priority"] [some " Tatkal "]).2
    (by decide) " Tatkal " (by decide) (by decide)

/-- C9: when the normalized header has no `remarks` column, the pipeline
does not degrade gracefully: the status step raises a `KeyError` that
aborts the whole invocation, and no dataset or aggregates are produced. -/
theorem missing_remarks_column_aborts (df : DataFrame)
    (h : (normalizeHeader df.cols).contains "remarks" = false) :
    runPipeline df = Except.error "KeyError: remarks" := by
  have hm : ¬ ("remarks" ∈ normalizeHeader df.cols) := by simpa using h
  simp [runPipeline, hm]

/-- C9 witness: a concrete one-row dataset without a remarks column
aborts with the `KeyError`. -/
theorem missing_remarks_column_aborts_witness :
    runPipeline ⟨["Sr.No."], [[some "1"]]⟩ = Except.error "KeyError: remarks" :=
  missing_remarks_column_aborts ⟨["Sr.No."], [[some "1"]]⟩ (by decide)

/-- C10: when the priority column is present, a record whose individual
priority cell is missing (pandas `NaN`) is classified with
`is_tatkal = false`, and no error is raised. -/
theorem null_priority_cell_not_tatkal (cols : List String) (row : RawRow)
    (hp : cols.contains "priority" = true)
    (hc : getCell cols row "priority" = none) :
    (classifyRow cols row).is_tatkal = false := by
  show (if cols.contains "priority" = true
    then is_tatkal_cell (getCell cols row "priority") else false) = false
  rw [hp, if_pos rfl, hc]
  rfl

/-- C10 witness: a concrete record with a present priority column but a
missing priority cell is not tatkal. -/
theorem null_priority_cell_not_tatkal_witness :
    (classifyRow ["remarks", "priority"] [some "x", none]).is_tatkal = false :=
  null_priority_cell_not_tatkal ["remarks", "priority"] [some "x", none]
    (by decide) (by decide)

/-- C1 (failing input): on a fetched dataset with zero records the
pipeline does not succeed: the overall percentage metrics divide
`completed_tasks` by `total_tasks = 0`, raising `ZeroDivisionError`,
which the `except` block reports as an error; no aggregates are
rendered. -/
theorem empty_dataset_zero_division_error :
    runPipeline ⟨["Remarks", "Priority"], []⟩ = Except.error "ZeroDivisionError" := by
  rfl

/-- C6 counterexample: a dataset whose normalized header has no priority
column (header `Remarks` only) but with zero records makes the pipeline
fail with `ZeroDivisionError` instead of succeeding, so the unrestricted
universal statement of the claim fails. -/
theorem no_priority_empty_dataset_error :
    runPipeline ⟨["Remarks"], []⟩ = Except.error "ZeroDivisionError" := by
  rfl

/-- C6 amended: for every fetched dataset whose normalized headers have
no `priority` column but do contain a `remarks` column and which has at
least one record, the pipeline succeeds: every record gets
`is_tatkal = false`, the `MissingPriorityColumn` condition is surfaced
as a non-fatal warning rather than an error, and classification and
aggregation complete over all the records. -/
theorem missing_priority_degrades_gracefully (df : DataFrame)
    (hp : (normalizeHeader df.cols).contains "priority" = false)
    (hr : (normalizeHeader df.cols).contains "remarks" = true)
    (hne : df.rows ≠ []) :
    ∃ res : PipelineResult,
      runPipeline df = Except.ok res ∧
      res.warnings = ["MissingPriorityColumn"] ∧
      (∀ r ∈ res.records, r.is_tatkal = false) ∧
      res.completed + res.pending = res.total ∧
      res.total = df.rows.length := by
  set cols := normalizeHeader df.cols with hcols
  set recs := df.rows.map (classifyRow cols) with hrecs
  have hall : ∀ r ∈ recs, r.is_tatkal = false := by
    intro r hrr
    rw [hrecs] at hrr
    obtain ⟨row, hrow_mem, hrow⟩ := List.mem_map.mp hrr
    rw [← hrow]
    show (if cols.contains "priority" = true
      then is_tatkal_cell (getCell cols row "priority") else false) = false
    rw [hp, if_neg (by decide)]
  have htot : total_tasks recs = df.rows.length := by
    rw [hrecs]; simp [total_tasks]
  have htot0 : ¬ (total_tasks recs = 0) := by
    rw [htot]
    intro h0
    exact hne (List.length_eq_zero.mp h0)
  have hpct1 : pct (completed_tasks recs) (total_tasks recs) =
      Except.ok (((completed_tasks recs : ℚ) / (total_tasks recs : ℚ)) * 100) := by
    unfold pct; rw [if_neg htot0]
  have hpct2 : pct (pending_tasks recs) (total_tasks recs) =
      Except.ok (((pending_tasks recs : ℚ) / (total_tasks recs : ℚ)) * 100) := by
    unfold pct; rw [if_neg htot0]
  have htt : total_tatkal_tasks recs = 0 := by
    unfold total_tatkal_tasks tatkal_df
    rw [List.length_eq_zero]
    apply List.filter_eq_nil_iff.mpr
    intro r hrr
    simp [hall r hrr]
  have hrun : runPipeline df = Except.ok ⟨recs, total_tasks recs, completed_tasks recs,
      pending_tasks recs, ((completed_tasks recs : ℚ) / (total_tasks recs : ℚ)) * 100,
      ((pending_tasks recs : ℚ) / (total_tasks recs : ℚ)) * 100,
      0, none, ["MissingPriorityColumn"]⟩ := by
    simp only [runPipeline]
    rw [← hcols, ← hrecs, hr, if_pos rfl, hp, if_neg (by decide), hpct1, hpct2, htt]
    rfl
  refine ⟨_, hrun, rfl, hall, completed_add_pending recs, htot⟩

/-- C6 witness: a concrete one-record dataset with a remarks column and
no priority column runs to success with the warning surfaced. -/
theorem missing_priority_degrades_gracefully_witness :
    ∃ res : PipelineResult,
      runPipeline ⟨["Remarks"], [[some "done"]]⟩ = Except.ok res ∧
      res.warnings = ["MissingPriorityColumn"] ∧
      (∀ r ∈ res.records, r.is_tatkal = false) ∧
      res.completed + res.pending = res.total ∧
      res.total = ([[some "done"]] : List RawRow).length :=
  missing_priority_degrades_gracefully ⟨["Remarks"], [[some "done"]]⟩
    (by decide) (by decide) (by decide)
